import Mathlib

/-!
# Verification of the financial ratio and valuation engine

A shallow embedding of `src/financial_analyser.py` (class `FundamentalAnalyzer`).

Modelling conventions:
* A pandas DataFrame loaded with `index_col=0` becomes a `Table`: an ordered
  list of column labels (reporting periods, most-recent first) and an ordered
  list of rows, each a line-item name paired with the values for each period.
* `df.loc[row, col]` becomes `Table.loc`, which raises (returns) a
  `PyErr.keyError` when the row label or the column label is absent, mirroring
  pandas.  `df.columns[0]` on an empty column index raises an `IndexError`,
  modelled by `PyErr.indexError`.
* Python float arithmetic is embedded as exact rational arithmetic over `ℚ`.
  Division by zero follows the embedding's `x / 0 = 0` convention; where a
  claim turns on division-by-zero behaviour this is noted at the theorem.
* Python `try`/`except KeyError` blocks are modelled by a `match` on the
  `Except` value of the guarded body that converts `keyError` to the handler's
  result and re-raises every other error.
* Python dicts (insertion-ordered) become association lists in insertion
  order.  The DCF routine returns a fixed record shape, so its dict is
  modelled by the structure `DCFResult`; its `Assumptions` sub-dict is the
  record's assumption fields (the `f"{...}%"` string formatting of the Python
  code is elided, the numeric content is kept).
-/

/-- Python exceptions relevant to the analyser: `KeyError` (carrying the
missing label) and `IndexError` (from `columns[0]` on an empty index). -/
inductive PyErr where
  | keyError (label : String)
  | indexError
  deriving DecidableEq, Repr

deriving instance DecidableEq for Except

/-- A heterogeneous dict value: the growth calculator's dict maps names either
to numbers or to an informational string. -/
inductive Val where
  | num (q : ℚ)
  | str (s : String)
  deriving DecidableEq, Repr

/-- A financial-statement table: reporting-period column labels
(most-recent-first) crossed with rows keyed by line-item name.  Mirrors a
pandas DataFrame read with `index_col=0`. -/
structure Table where
  columns : List String
  rows : List (String × List ℚ)
  deriving Repr

/-- `df.index`: the list of row (line-item) labels. -/
def Table.index (t : Table) : List String :=
  t.rows.map Prod.fst

/-- Position of a column label in the column index (first occurrence),
`none` when absent. -/
def colIdx (cols : List String) (c : String) : Option ℕ :=
  match cols with
  | [] => none
  | x :: xs => if x == c then some 0 else (colIdx xs c).map (· + 1)

/-- `df.loc[r, c]`: look up row label `r` and column label `c`.  A missing row
or column label raises `KeyError` (as in pandas); a present cell yields its
value (rectangular frames always have the cell, `getD`'s default is inert). -/
def Table.loc (t : Table) (r c : String) : Except PyErr ℚ :=
  match t.rows.find? (fun p => p.fst == r) with
  | none => .error (.keyError r)
  | some p =>
    match colIdx t.columns c with
    | none => .error (.keyError c)
    | some i => .ok (p.snd.getD i 0)

/-- Body of the `try` block of `calculate_profitability_ratios` (lines 79-105):
four `.loc` lookups at the latest period, then the three ratios, in the
source's dict order. -/
def profitabilityBody (income_stmt balance_sheet : Table) (latest : String) :
    Except PyErr (List (String × ℚ)) :=
  match income_stmt.loc "Total Revenue" latest with
  | .error e => .error e
  | .ok revenue =>
  match income_stmt.loc "Net Income" latest with
  | .error e => .error e
  | .ok net_income =>
  match balance_sheet.loc "Total Assets" latest with
  | .error e => .error e
  | .ok total_assets =>
  match balance_sheet.loc "Stockholders Equity" latest with
  | .error e => .error e
  | .ok shareholders_equity =>
  .ok [("Net Profit Margin (%)", net_income / revenue * 100),
       ("ROA (Return on Assets %)", net_income / total_assets * 100),
       ("ROE (Return on Equity %)", net_income / shareholders_equity * 100)]

/-- `calculate_profitability_ratios` (lines 63-111): reads
`income_stmt.columns[0]` before the `try` block (an empty column index there
raises `IndexError`, uncaught), runs the guarded body, and on `KeyError`
falls to `_try_alternative_names`, which prints diagnostics and returns `{}`. -/
def calculate_profitability_ratios (income_stmt balance_sheet : Table) :
    Except PyErr (List (String × ℚ)) :=
  match income_stmt.columns.head? with
  | none => .error .indexError
  | some latest =>
    match profitabilityBody income_stmt balance_sheet latest with
    | .ok r => .ok r
    | .error (.keyError _) => .ok []
    | .error .indexError => .error .indexError

/-- Body of the `try` block of `calculate_leverage_ratios` (lines 146-167). -/
def leverageBody (balance_sheet : Table) (latest : String) :
    Except PyErr (List (String × ℚ)) :=
  match balance_sheet.loc "Total Debt" latest with
  | .error e => .error e
  | .ok total_debt =>
  match balance_sheet.loc "Stockholders Equity" latest with
  | .error e => .error e
  | .ok total_equity =>
  match balance_sheet.loc "Total Assets" latest with
  | .error e => .error e
  | .ok total_assets =>
  .ok [("Debt-to-Equity", total_debt / total_equity),
       ("Debt-to-Assets", total_debt / total_assets),
       ("Equity Multiplier", total_assets / total_equity)]

/-- `calculate_leverage_ratios` (lines 129-171): `balance_sheet.columns[0]`
before the `try`, guarded body, `KeyError` handler returns `{}`. -/
def calculate_leverage_ratios (balance_sheet : Table) :
    Except PyErr (List (String × ℚ)) :=
  match balance_sheet.columns.head? with
  | none => .error .indexError
  | some latest =>
    match leverageBody balance_sheet latest with
    | .ok r => .ok r
    | .error (.keyError _) => .ok []
    | .error .indexError => .error .indexError

/-- Body of the `try` block of `calculate_growth_metrics` (lines 193-208). -/
def growthBody (income_stmt : Table) (current_year previous_year : String) :
    Except PyErr (List (String × Val)) :=
  match income_stmt.loc "Total Revenue" current_year with
  | .error e => .error e
  | .ok current_revenue =>
  match income_stmt.loc "Total Revenue" previous_year with
  | .error e => .error e
  | .ok previous_revenue =>
  match income_stmt.loc "Net Income" current_year with
  | .error e => .error e
  | .ok current_ni =>
  match income_stmt.loc "Net Income" previous_year with
  | .error e => .error e
  | .ok previous_ni =>
  .ok [("Revenue Growth YoY (%)",
          .num ((current_revenue - previous_revenue) / previous_revenue * 100)),
       ("Net Income Growth YoY (%)",
          .num ((current_ni - previous_ni) / previous_ni * 100))]

/-- `calculate_growth_metrics` (lines 173-211): with fewer than two reporting
periods returns the single informational `Note` entry before touching any
column; otherwise compares `columns[0]` and `columns[1]`, with the `KeyError`
handler returning `{}`. -/
def calculate_growth_metrics (income_stmt : Table) :
    Except PyErr (List (String × Val)) :=
  if income_stmt.columns.length < 2 then
    .ok [("Note", Val.str "Insufficient data for growth calculation")]
  else
    let current_year := income_stmt.columns.getD 0 ""
    let previous_year := income_stmt.columns.getD 1 ""
    match growthBody income_stmt current_year previous_year with
    | .ok r => .ok r
    | .error (.keyError _) => .ok []
    | .error .indexError => .error .indexError

/-- The Valuation Result record returned by `simple_dcf_valuation` (the dict
built at lines 273-283), assumption set included. -/
structure DCFResult where
  enterprise_value : ℚ
  current_fcf : ℚ
  projected_fcf_pv : ℚ
  terminal_value_pv : ℚ
  growth_rate : ℚ
  discount_rate : ℚ
  years : ℕ
  deriving DecidableEq, Repr

/-- Lines 252-283 of `simple_dcf_valuation`: given the base-year FCF, project
`years` cash flows (`fcf * (1+g)^y / (1+d)^y` for `y = 1..years`), add the
discounted Gordon-growth terminal value, and assemble the result record. -/
def mkDCF (fcf growth_rate discount_rate : ℚ) (years : ℕ) : DCFResult :=
  let projected_fcf : List ℚ :=
    (List.range years).map
      (fun y => fcf * (1 + growth_rate) ^ (y + 1) / (1 + discount_rate) ^ (y + 1))
  let terminal_fcf := fcf * (1 + growth_rate) ^ years * (1 + growth_rate)
  let terminal_value := terminal_fcf / (discount_rate - growth_rate)
  let pv_terminal := terminal_value / (1 + discount_rate) ^ years
  { enterprise_value := projected_fcf.sum + pv_terminal
    current_fcf := fcf
    projected_fcf_pv := projected_fcf.sum
    terminal_value_pv := pv_terminal
    growth_rate := growth_rate
    discount_rate := discount_rate
    years := years }

/-- Body of the `try` block of `simple_dcf_valuation` (lines 233-283): read
`cashflow.columns[0]` (inside the `try`, but `IndexError` is not caught by the
`except KeyError` handler), pick the base FCF by the source's preference
order, and either build the result record or return `{}` (`none`) when no
cash-flow line item is usable. -/
def dcfBody (cashflow : Table) (growth_rate discount_rate : ℚ) (years : ℕ) :
    Except PyErr (Option DCFResult) :=
  match cashflow.columns.head? with
  | none => .error .indexError
  | some latest =>
    if "Free Cash Flow" ∈ cashflow.index then
      match cashflow.loc "Free Cash Flow" latest with
      | .error e => .error e
      | .ok fcf => .ok (some (mkDCF fcf growth_rate discount_rate years))
    else if "Operating Cash Flow" ∈ cashflow.index then
      match cashflow.loc "Operating Cash Flow" latest with
      | .error e => .error e
      | .ok ocf =>
        match (if "Capital Expenditure" ∈ cashflow.index then
                 match cashflow.loc "Capital Expenditure" latest with
                 | .error e => .error e
                 | .ok cx => .ok |cx|
               else (.ok 0 : Except PyErr ℚ)) with
        | .error e => .error e
        | .ok capex => .ok (some (mkDCF (ocf - capex) growth_rate discount_rate years))
    else
      .ok none

/-- `simple_dcf_valuation` (lines 213-289): the guarded body with the
`except KeyError` handler returning `{}` (`none`); any other exception
(the `IndexError` from an empty column index) propagates. -/
def simple_dcf_valuation (cashflow : Table) (growth_rate discount_rate : ℚ)
    (years : ℕ) : Except PyErr (Option DCFResult) :=
  match dcfBody cashflow growth_rate discount_rate years with
  | .ok r => .ok r
  | .error (.keyError _) => .ok none
  | .error .indexError => .error .indexError

/-! ## Concrete stores used by the spec's test scenarios -/

/-- Income statement of the spec's concrete scenario:
periods [2024: Revenue=100, Net Income=20], [2023: Revenue=80, Net Income=10]. -/
def incomeEx : Table :=
  { columns := ["2024", "2023"]
    rows := [("Total Revenue", [100, 80]), ("Net Income", [20, 10])] }

/-- Balance sheet of the spec's concrete scenario:
[2024: Total Assets=200, Stockholders Equity=100, Total Debt=50]. -/
def balanceEx : Table :=
  { columns := ["2024"]
    rows := [("Total Assets", [200]), ("Stockholders Equity", [100]),
             ("Total Debt", [50])] }

/-- Cash-flow statement of the spec's DCF scenario:
Operating Cash Flow=150, Capital Expenditure=-30. -/
def cashflowEx : Table :=
  { columns := ["2024"]
    rows := [("Operating Cash Flow", [150]), ("Capital Expenditure", [-30])] }

/-- A statement table with no reporting periods at all. -/
def emptyTable : Table := { columns := [], rows := [] }

/-- A cash-flow table whose explicit Free Cash Flow is zero. -/
def zeroFcfCashflow : Table :=
  { columns := ["2024"], rows := [("Free Cash Flow", [0])] }

/-! ## Lemmas about the lookup primitives -/

theorem colIdx_eq_none {cols : List String} {c : String} :
    colIdx cols c = none ↔ c ∉ cols := by
  induction cols with
  | nil => simp [colIdx]
  | cons x xs ih =>
    by_cases hx : x = c
    · subst hx
      simp [colIdx]
    · have hb : (x == c) = false := by
        simp [hx]
      simp only [colIdx, hb, Bool.false_eq_true, if_false, List.mem_cons]
      cases hxs : colIdx xs c with
      | none =>
        simp only [Option.map_none', true_iff]
        intro hc
        rcases hc with rfl | hc
        · exact hx rfl
        · exact (ih.mp hxs) hc
      | some i =>
        have hc : c ∈ xs := by
          by_contra hcc
          rw [ih.mpr hcc] at hxs
          cases hxs
        simp [hxs, hc]

theorem colIdx_some_of_mem {cols : List String} {c : String} (h : c ∈ cols) :
    ∃ i, colIdx cols c = some i := by
  cases hx : colIdx cols c with
  | none => exact absurd (colIdx_eq_none.mp hx) (by simpa using h)
  | some i => exact ⟨i, rfl⟩

theorem Table.loc_of_not_index {t : Table} {r : String} (c : String)
    (h : r ∉ t.index) : t.loc r c = .error (.keyError r) := by
  unfold Table.loc
  have hf : t.rows.find? (fun p => p.fst == r) = none := by
    rw [List.find?_eq_none]
    intro p hp hbeq
    exact h (List.mem_map.mpr ⟨p, hp, by simpa using hbeq⟩)
  rw [hf]

theorem Table.loc_ok_mem {t : Table} {r c : String} {q : ℚ}
    (h : t.loc r c = .ok q) : r ∈ t.index ∧ c ∈ t.columns := by
  unfold Table.loc at h
  cases hf : t.rows.find? (fun p => p.fst == r) with
  | none => rw [hf] at h; cases h
  | some p =>
    rw [hf] at h
    cases hc : colIdx t.columns c with
    | none => rw [hc] at h; cases h
    | some i =>
      refine ⟨?_, ?_⟩
      · have hmem := List.mem_of_find?_eq_some hf
        have hpr : p.fst = r := by
          have := List.find?_some hf
          simpa using this
        exact hpr ▸ List.mem_map.mpr ⟨p, hmem, rfl⟩
      · by_contra hcc
        rw [colIdx_eq_none.mpr hcc] at hc
        cases hc

theorem Table.loc_ok_of_mem {t : Table} {r c : String}
    (hr : r ∈ t.index) (hc : c ∈ t.columns) : ∃ q, t.loc r c = .ok q := by
  unfold Table.loc
  obtain ⟨i, hi⟩ := colIdx_some_of_mem hc
  cases hf : t.rows.find? (fun p => p.fst == r) with
  | none =>
    exfalso
    rw [List.find?_eq_none] at hf
    obtain ⟨p, hp, rfl⟩ := List.mem_map.mp hr
    exact hf p hp (by simp)
  | some p =>
    rw [hi]
    exact ⟨_, rfl⟩

theorem Table.loc_error_keyError {t : Table} {r c : String} {e : PyErr}
    (h : t.loc r c = .error e) : ∃ s, e = .keyError s := by
  unfold Table.loc at h
  cases hf : t.rows.find? (fun p => p.fst == r) with
  | none =>
    rw [hf] at h
    injection h with h2
    exact ⟨r, h2.symm⟩
  | some p =>
    rw [hf] at h
    cases hc : colIdx t.columns c with
    | none =>
      rw [hc] at h
      injection h with h2
      exact ⟨c, h2.symm⟩
    | some i =>
      rw [hc] at h
      cases h

/-! ## Lemmas about the guarded bodies -/

theorem profitabilityBody_ok {income balance : Table} {latest : String}
    {l : List (String × ℚ)}
    (h : profitabilityBody income balance latest = .ok l) :
    "Total Revenue" ∈ income.index ∧ "Net Income" ∈ income.index ∧
    "Total Assets" ∈ balance.index ∧ "Stockholders Equity" ∈ balance.index ∧
    latest ∈ balance.columns := by
  unfold profitabilityBody at h
  cases h1 : income.loc "Total Revenue" latest with
  | error e => rw [h1] at h; cases h
  | ok revenue =>
  rw [h1] at h
  cases h2 : income.loc "Net Income" latest with
  | error e => rw [h2] at h; cases h
  | ok net_income =>
  rw [h2] at h
  cases h3 : balance.loc "Total Assets" latest with
  | error e => rw [h3] at h; cases h
  | ok total_assets =>
  rw [h3] at h
  cases h4 : balance.loc "Stockholders Equity" latest with
  | error e => rw [h4] at h; cases h
  | ok shareholders_equity =>
  exact ⟨(Table.loc_ok_mem h1).1, (Table.loc_ok_mem h2).1,
         (Table.loc_ok_mem h3).1, (Table.loc_ok_mem h4).1,
         (Table.loc_ok_mem h3).2⟩

theorem profitabilityBody_error_keyError {income balance : Table}
    {latest : String} {e : PyErr}
    (h : profitabilityBody income balance latest = .error e) :
    ∃ s, e = .keyError s := by
  unfold profitabilityBody at h
  cases h1 : income.loc "Total Revenue" latest with
  | error e1 =>
    rw [h1] at h
    injection h with h'
    exact h' ▸ Table.loc_error_keyError h1
  | ok revenue =>
  rw [h1] at h
  cases h2 : income.loc "Net Income" latest with
  | error e2 =>
    rw [h2] at h
    injection h with h'
    exact h' ▸ Table.loc_error_keyError h2
  | ok net_income =>
  rw [h2] at h
  cases h3 : balance.loc "Total Assets" latest with
  | error e3 =>
    rw [h3] at h
    injection h with h'
    exact h' ▸ Table.loc_error_keyError h3
  | ok total_assets =>
  rw [h3] at h
  cases h4 : balance.loc "Stockholders Equity" latest with
  | error e4 =>
    rw [h4] at h
    injection h with h'
    exact h' ▸ Table.loc_error_keyError h4
  | ok shareholders_equity =>
  rw [h4] at h
  cases h

theorem dcfBody_ok_some {t : Table} {g d : ℚ} {N : ℕ} {r : DCFResult}
    (h : dcfBody t g d N = .ok (some r)) : ∃ fcf, r = mkDCF fcf g d N := by
  unfold dcfBody at h
  cases hcol : t.columns.head? with
  | none => rw [hcol] at h; cases h
  | some latest =>
  rw [hcol] at h
  dsimp only at h
  by_cases hfcf : "Free Cash Flow" ∈ t.index
  · rw [if_pos hfcf] at h
    cases h1 : t.loc "Free Cash Flow" latest with
    | error e => rw [h1] at h; cases h
    | ok fcf =>
      rw [h1] at h
      injection h with h'
      injection h' with h''
      exact ⟨fcf, h''.symm⟩
  · rw [if_neg hfcf] at h
    by_cases hocf : "Operating Cash Flow" ∈ t.index
    · rw [if_pos hocf] at h
      cases h1 : t.loc "Operating Cash Flow" latest with
      | error e => rw [h1] at h; cases h
      | ok ocf =>
        rw [h1] at h
        by_cases hcx : "Capital Expenditure" ∈ t.index
        · rw [if_pos hcx] at h
          cases h2 : t.loc "Capital Expenditure" latest with
          | error e => rw [h2] at h; cases h
          | ok cx =>
            rw [h2] at h
            injection h with h'
            injection h' with h''
            exact ⟨ocf - |cx|, h''.symm⟩
        · rw [if_neg hcx] at h
          injection h with h'
          injection h' with h''
          exact ⟨ocf - 0, h''.symm⟩
    · rw [if_neg hocf] at h
      injection h with h'
      cases h'

theorem simple_dcf_ok_some {t : Table} {g d : ℚ} {N : ℕ} {r : DCFResult}
    (h : simple_dcf_valuation t g d N = .ok (some r)) :
    dcfBody t g d N = .ok (some r) := by
  unfold simple_dcf_valuation at h
  cases hb : dcfBody t g d N with
  | ok r' =>
    rw [hb] at h
    injection h with h'
    rw [h']
  | error e =>
    rw [hb] at h
    cases e with
    | keyError s => injection h with h'; cases h'
    | indexError => cases h

/-! ## The DCF arithmetic in closed form -/

theorem mkDCF_ev_def (fcf g d : ℚ) (N : ℕ) :
    (mkDCF fcf g d N).enterprise_value =
      ((List.range N).map (fun y => fcf * (1 + g) ^ (y + 1) / (1 + d) ^ (y + 1))).sum +
      (fcf * (1 + g) ^ N * (1 + g) / (d - g)) / (1 + d) ^ N := rfl

theorem mkDCF_current_fcf (fcf g d : ℚ) (N : ℕ) :
    (mkDCF fcf g d N).current_fcf = fcf := rfl

theorem range_map_sum (f : ℕ → ℚ) (n : ℕ) :
    ((List.range n).map (fun y => f (y + 1))).sum = ∑ y in Finset.Icc 1 n, f y := by
  induction n with
  | zero => simp
  | succ n ih =>
    rw [List.range_succ, List.map_append, List.sum_append, ih,
        Finset.sum_Icc_succ_top (Nat.le_add_left 1 n) f]
    simp

/-- The enterprise value computed by `mkDCF`, as the spec's closed form:
sum over `y = 1..N` of discounted projected cash flows, plus the discounted
Gordon-growth terminal value with terminal-year FCF `fcf * (1+g)^(N+1)`. -/
theorem mkDCF_enterprise_value (fcf g d : ℚ) (N : ℕ) :
    (mkDCF fcf g d N).enterprise_value =
      (∑ y in Finset.Icc 1 N, fcf * (1 + g) ^ y / (1 + d) ^ y) +
      (fcf * (1 + g) ^ (N + 1) / (d - g)) / (1 + d) ^ N := by
  rw [mkDCF_ev_def,
      range_map_sum (fun y => fcf * (1 + g) ^ y / (1 + d) ^ y) N]
  congr 1
  rw [pow_succ]
  ring

/-- The per-unit-of-FCF value of the DCF cash-flow stream. -/
def dcfFactor (g d : ℚ) (N : ℕ) : ℚ :=
  (∑ y in Finset.Icc 1 N, (1 + g) ^ y / (1 + d) ^ y) +
  ((1 + g) ^ (N + 1) / (d - g)) / (1 + d) ^ N

theorem mkDCF_ev_factor (fcf g d : ℚ) (N : ℕ) :
    (mkDCF fcf g d N).enterprise_value = fcf * dcfFactor g d N := by
  rw [mkDCF_enterprise_value, dcfFactor, mul_add, Finset.mul_sum]
  congr 1
  · exact Finset.sum_congr rfl (fun y _ => by ring)
  · ring

theorem dcfFactor_pos {g d : ℚ} (hg : -1 < g) (hgd : g < d) (N : ℕ) :
    0 < dcfFactor g d N := by
  have hg1 : (0:ℚ) < 1 + g := by linarith
  have hd1 : (0:ℚ) < 1 + d := by linarith
  have hsum : 0 ≤ ∑ y in Finset.Icc 1 N, (1 + g) ^ y / (1 + d) ^ y :=
    Finset.sum_nonneg
      (fun y _ => le_of_lt (div_pos (pow_pos hg1 y) (pow_pos hd1 y)))
  have hterm : 0 < ((1 + g) ^ (N + 1) / (d - g)) / (1 + d) ^ N :=
    div_pos (div_pos (pow_pos hg1 (N + 1)) (by linarith)) (pow_pos hd1 N)
  unfold dcfFactor
  linarith

theorem mkDCF_ev_strictMono_fcf {g d : ℚ} (hg : -1 < g) (hgd : g < d)
    (N : ℕ) {f1 f2 : ℚ} (hf : f1 < f2) :
    (mkDCF f1 g d N).enterprise_value < (mkDCF f2 g d N).enterprise_value := by
  rw [mkDCF_ev_factor, mkDCF_ev_factor]
  exact mul_lt_mul_of_pos_right hf (dcfFactor_pos hg hgd N)

theorem mkDCF_ev_strictAnti_d {g d dd fcf : ℚ} (hg : -1 < g) (hgd : g < d)
    (hdd : d < dd) (hfcf : 0 < fcf) (N : ℕ) :
    (mkDCF fcf g dd N).enterprise_value < (mkDCF fcf g d N).enterprise_value := by
  have hg1 : (0:ℚ) < 1 + g := by linarith
  have hd1 : (0:ℚ) < 1 + d := by linarith
  rw [mkDCF_enterprise_value, mkDCF_enterprise_value]
  have hsum : (∑ y in Finset.Icc 1 N, fcf * (1 + g) ^ y / (1 + dd) ^ y)
      ≤ ∑ y in Finset.Icc 1 N, fcf * (1 + g) ^ y / (1 + d) ^ y := by
    apply Finset.sum_le_sum
    intro y _
    exact div_le_div_of_nonneg_left
      (le_of_lt (mul_pos hfcf (pow_pos hg1 y))) (pow_pos hd1 y)
      (pow_le_pow_left₀ (le_of_lt hd1) (by linarith) y)
  have hX : (0:ℚ) < fcf * (1 + g) ^ (N + 1) :=
    mul_pos hfcf (pow_pos hg1 (N + 1))
  have h1 : (fcf * (1 + g) ^ (N + 1) / (dd - g)) / (1 + dd) ^ N
      ≤ (fcf * (1 + g) ^ (N + 1) / (dd - g)) / (1 + d) ^ N :=
    div_le_div_of_nonneg_left
      (le_of_lt (div_pos hX (by linarith))) (pow_pos hd1 N)
      (pow_le_pow_left₀ (le_of_lt hd1) (by linarith) N)
  have h2 : (fcf * (1 + g) ^ (N + 1) / (dd - g)) / (1 + d) ^ N
      < (fcf * (1 + g) ^ (N + 1) / (d - g)) / (1 + d) ^ N :=
    (div_lt_div_iff_of_pos_right (pow_pos hd1 N)).mpr
      (div_lt_div_of_pos_left hX (by linarith) (by linarith))
  linarith


/-! ## Further concrete stores used as witnesses and counterexamples -/

/-- An income statement with a latest period but no Net Income row. -/
def incomeNoNI : Table :=
  { columns := ["2024"], rows := [("Total Revenue", [100])] }

/-- A balance sheet holding all required rows, but under a period label
different from the income statement's. -/
def balanceMismatch : Table :=
  { columns := ["FY2024"]
    rows := [("Total Assets", [200]), ("Stockholders Equity", [100])] }

/-- A cash-flow table carrying both an explicit Free Cash Flow row and an
Operating Cash Flow row. -/
def cashflowWithFCF : Table :=
  { columns := ["2024"]
    rows := [("Free Cash Flow", [7]), ("Operating Cash Flow", [150])] }

/-- A cash-flow table with Operating Cash Flow only (no Capital Expenditure). -/
def cashflowOCFOnly : Table :=
  { columns := ["2024"], rows := [("Operating Cash Flow", [150])] }

/-- A cash-flow table with neither Free Cash Flow nor Operating Cash Flow. -/
def cashflowNone : Table :=
  { columns := ["2024"], rows := [("Net Income", [5])] }

/-! ## Claims -/

/-- C2: for every statement store whose income statement holds Total Revenue
and Net Income and whose balance sheet holds Total Assets and Stockholders
Equity at the latest period, `calculate_profitability_ratios` returns exactly
Net Profit Margin = (Net Income / Total Revenue) × 100,
Return on Assets = (Net Income / Total Assets) × 100 and
Return on Equity = (Net Income / Stockholders Equity) × 100. -/
theorem profitability_ratios_formula
    (income balance : Table) (latest : String) (rest : List String)
    (rev ni ta se : ℚ)
    (hcols : income.columns = latest :: rest)
    (hrev : income.loc "Total Revenue" latest = .ok rev)
    (hni : income.loc "Net Income" latest = .ok ni)
    (hta : balance.loc "Total Assets" latest = .ok ta)
    (hse : balance.loc "Stockholders Equity" latest = .ok se) :
    calculate_profitability_ratios income balance =
      .ok [("Net Profit Margin (%)", ni / rev * 100),
           ("ROA (Return on Assets %)", ni / ta * 100),
           ("ROE (Return on Equity %)", ni / se * 100)] := by
  unfold calculate_profitability_ratios
  rw [hcols]
  dsimp only [List.head?]
  unfold profitabilityBody
  rw [hrev, hni, hta, hse]

/-- Witness for C2: the spec's concrete store, at which the hypotheses hold. -/
theorem profitability_ratios_formula_witness :
    calculate_profitability_ratios incomeEx balanceEx =
      .ok [("Net Profit Margin (%)", (20:ℚ) / 100 * 100),
           ("ROA (Return on Assets %)", (20:ℚ) / 200 * 100),
           ("ROE (Return on Equity %)", (20:ℚ) / 100 * 100)] :=
  profitability_ratios_formula incomeEx balanceEx "2024" ["2023"] 100 20 200 100
    rfl (by decide) (by decide) (by decide) (by decide)

/-- C3: whenever any of the four required profitability line items is absent
(and a latest period exists at all), `calculate_profitability_ratios` returns
the empty mapping, never a partial one. -/
theorem profitability_all_or_nothing
    (income balance : Table)
    (hne : income.columns ≠ [])
    (hmiss : "Total Revenue" ∉ income.index ∨ "Net Income" ∉ income.index ∨
             "Total Assets" ∉ balance.index ∨
             "Stockholders Equity" ∉ balance.index) :
    calculate_profitability_ratios income balance = .ok [] := by
  obtain ⟨latest, rest, hcols⟩ : ∃ a l, income.columns = a :: l := by
    cases h : income.columns with
    | nil => exact absurd h hne
    | cons a l => exact ⟨a, l, rfl⟩
  unfold calculate_profitability_ratios
  rw [hcols]
  dsimp only [List.head?]
  cases hb : profitabilityBody income balance latest with
  | ok l =>
    exfalso
    obtain ⟨h1, h2, h3, h4, _⟩ := profitabilityBody_ok hb
    rcases hmiss with h | h | h | h
    exacts [h h1, h h2, h h3, h h4]
  | error e =>
    obtain ⟨s, rfl⟩ := profitabilityBody_error_keyError hb
    rfl

/-- Witness for C3: an income statement lacking the Net Income row. -/
theorem profitability_all_or_nothing_witness :
    calculate_profitability_ratios incomeNoNI balanceEx = .ok [] :=
  profitability_all_or_nothing incomeNoNI balanceEx (by decide)
    (Or.inr (Or.inl (by decide)))

unseal Rat.mul Rat.inv Rat.add Rat.sub Rat.ofScientific in
/-- C7: the spec's concrete store yields Net Profit Margin 20%, ROA 10%,
ROE 20%, Debt-to-Equity 0.50 (with Debt-to-Assets 0.25 and Equity Multiplier
2 from the same leverage group), Revenue Growth 25% and Net Income Growth
100% year over year. -/
theorem concrete_ratio_scenario :
    calculate_profitability_ratios incomeEx balanceEx =
      .ok [("Net Profit Margin (%)", 20), ("ROA (Return on Assets %)", 10),
           ("ROE (Return on Equity %)", 20)] ∧
    calculate_leverage_ratios balanceEx =
      .ok [("Debt-to-Equity", 1/2), ("Debt-to-Assets", 1/4),
           ("Equity Multiplier", 2)] ∧
    calculate_growth_metrics incomeEx =
      .ok [("Revenue Growth YoY (%)", .num 25),
           ("Net Income Growth YoY (%)", .num 100)] :=
  ⟨by decide, by decide, by decide⟩

/-- C8: with fewer than two reporting periods (zero included) the growth
calculator returns the single informational placeholder entry and raises
nothing. -/
theorem growth_insufficient_history
    (income : Table) (h : income.columns.length < 2) :
    calculate_growth_metrics income =
      .ok [("Note", Val.str "Insufficient data for growth calculation")] := by
  unfold calculate_growth_metrics
  rw [if_pos h]

/-- Witness for C8: a table with no reporting periods at all. -/
theorem growth_insufficient_history_witness :
    calculate_growth_metrics emptyTable =
      .ok [("Note", Val.str "Insufficient data for growth calculation")] :=
  growth_insufficient_history emptyTable (by decide)

/-- C9: with zero reporting periods, `calculate_profitability_ratios` and
`simple_dcf_valuation` both raise the out-of-range indexing exception
(`columns[0]`), which their `except KeyError` handlers do not catch, instead
of degrading to an empty mapping. -/
theorem zero_period_index_error
    (income balance cashflow : Table) (g d : ℚ) (N : ℕ)
    (hin : income.columns = []) (hcf : cashflow.columns = []) :
    calculate_profitability_ratios income balance = .error .indexError ∧
    simple_dcf_valuation cashflow g d N = .error .indexError := by
  constructor
  · unfold calculate_profitability_ratios
    rw [hin]
    rfl
  · unfold simple_dcf_valuation dcfBody
    rw [hcf]
    rfl

/-- Witness for C9: the table with an empty column index. -/
theorem zero_period_index_error_witness :
    calculate_profitability_ratios emptyTable balanceEx = .error .indexError ∧
    simple_dcf_valuation emptyTable (1/20) (1/10) 5 = .error .indexError :=
  zero_period_index_error emptyTable balanceEx emptyTable (1/20) (1/10) 5
    rfl rfl

/-- C10: the balance-sheet items are looked up under the income statement's
latest column label, so when the balance sheet's columns lack that exact
label the profitability result is empty even though every required line item
exists in each statement's own latest period. -/
theorem profitability_column_mismatch
    (income balance : Table) (latest : String) (rest : List String)
    (hcols : income.columns = latest :: rest)
    (hnc : latest ∉ balance.columns)
    (_h1 : "Total Revenue" ∈ income.index) (_h2 : "Net Income" ∈ income.index)
    (_h3 : "Total Assets" ∈ balance.index)
    (_h4 : "Stockholders Equity" ∈ balance.index) :
    calculate_profitability_ratios income balance = .ok [] := by
  unfold calculate_profitability_ratios
  rw [hcols]
  dsimp only [List.head?]
  cases hb : profitabilityBody income balance latest with
  | ok l =>
    exact absurd (profitabilityBody_ok hb).2.2.2.2 hnc
  | error e =>
    obtain ⟨s, rfl⟩ := profitabilityBody_error_keyError hb
    rfl

/-- Witness for C10: all four line items present, but the balance sheet's
period label differs from the income statement's. -/
theorem profitability_column_mismatch_witness :
    calculate_profitability_ratios incomeEx balanceMismatch = .ok [] :=
  profitability_column_mismatch incomeEx balanceMismatch "2024" ["2023"]
    rfl (by decide) (by decide) (by decide) (by decide) (by decide)

unseal Rat.mul Rat.inv Rat.add Rat.sub Rat.ofScientific in
/-- C1: every populated DCF result's Enterprise Value equals the closed form
`∑ y in 1..N, FCF0 (1+g)^y / (1+d)^y` plus the discounted terminal value
`(FCF0 (1+g)^(N+1) / (d-g)) / (1+d)^N`; and on the concrete scenario
(Operating Cash Flow 150, Capital Expenditure -30, g = 0.05, d = 0.10,
N = 5, base FCF 120) the enterprise value matches the reference evaluation
of this formula within 1e-6 relative error (exactly, in fact: the embedding
is exact rational arithmetic). -/
theorem dcf_enterprise_value_closed_form :
    (∀ (t : Table) (g d : ℚ) (N : ℕ) (r : DCFResult), 1 ≤ N →
      simple_dcf_valuation t g d N = .ok (some r) →
      r.enterprise_value =
        (∑ y in Finset.Icc 1 N, r.current_fcf * (1 + g) ^ y / (1 + d) ^ y) +
        (r.current_fcf * (1 + g) ^ (N + 1) / (d - g)) / (1 + d) ^ N) ∧
    (∃ r : DCFResult,
      simple_dcf_valuation cashflowEx (1/20) (1/10) 5 = .ok (some r) ∧
      r.current_fcf = 120 ∧
      |r.enterprise_value -
          ((∑ y in Finset.Icc 1 5, 120 * (1 + 1/20 : ℚ) ^ y / (1 + 1/10) ^ y) +
           (120 * (1 + 1/20 : ℚ) ^ (5 + 1) / (1/10 - 1/20)) / (1 + 1/10) ^ 5)| ≤
        (1 / 1000000) *
          |(∑ y in Finset.Icc 1 5, 120 * (1 + 1/20 : ℚ) ^ y / (1 + 1/10) ^ y) +
           (120 * (1 + 1/20 : ℚ) ^ (5 + 1) / (1/10 - 1/20)) / (1 + 1/10) ^ 5|) := by
  constructor
  · intro t g d N r _ h
    obtain ⟨fcf, rfl⟩ := dcfBody_ok_some (simple_dcf_ok_some h)
    rw [mkDCF_current_fcf, mkDCF_enterprise_value]
  · refine ⟨mkDCF 120 (1/20) (1/10) 5, by decide, rfl, ?_⟩
    rw [mkDCF_enterprise_value, sub_self, abs_zero]
    positivity

unseal Rat.mul Rat.inv Rat.add Rat.sub Rat.ofScientific in
/-- Witness for C1: the closed form instantiated at the concrete scenario. -/
theorem dcf_enterprise_value_closed_form_witness :
    (mkDCF 120 (1/20) (1/10) 5).enterprise_value =
      (∑ y in Finset.Icc 1 5,
        (mkDCF 120 (1/20) (1/10) 5).current_fcf * (1 + 1/20 : ℚ) ^ y /
          (1 + 1/10) ^ y) +
      ((mkDCF 120 (1/20) (1/10) 5).current_fcf * (1 + 1/20 : ℚ) ^ (5 + 1) /
          (1/10 - 1/20)) / (1 + 1/10) ^ 5 :=
  dcf_enterprise_value_closed_form.1 cashflowEx (1/20) (1/10) 5
    (mkDCF 120 (1/20) (1/10) 5) (by norm_num) (by decide)

unseal Rat.mul Rat.inv Rat.add Rat.sub Rat.ofScientific in
/-- Counterexample to C4: invoked with discount rate equal to growth rate,
`simple_dcf_valuation` signals nothing: it returns an ordinary populated
result (no exception, not the empty dict).  The terminal-value step divides
by zero unflagged — in this exact-rational embedding the quotient collapses
to 0 (in the host's IEEE-754 floats it is an infinity, equally unflagged). -/
theorem dcf_equal_rates_counterexample :
    simple_dcf_valuation cashflowEx (1/20) (1/20) 5 =
      .ok (some (mkDCF 120 (1/20) (1/20) 5)) ∧
    (mkDCF 120 (1/20) (1/20) 5).enterprise_value = 600 ∧
    (mkDCF 120 (1/20) (1/20) 5).terminal_value_pv = 0 :=
  ⟨by decide, by decide, by decide⟩

/-- C4 as amended: with discount rate equal to growth rate and a usable
cash-flow line item, `simple_dcf_valuation` does NOT signal the degenerate
division: it returns a populated result like any other invocation. -/
theorem dcf_equal_rates_unflagged
    (t : Table) (g : ℚ) (N : ℕ) (latest : String) (rest : List String)
    (hcols : t.columns = latest :: rest)
    (havail : "Free Cash Flow" ∈ t.index ∨ "Operating Cash Flow" ∈ t.index) :
    ∃ r : DCFResult, simple_dcf_valuation t g g N = .ok (some r) := by
  have hlatest : latest ∈ t.columns := by
    rw [hcols]
    exact List.mem_cons_self latest rest
  unfold simple_dcf_valuation dcfBody
  rw [hcols]
  dsimp only [List.head?]
  by_cases hf : "Free Cash Flow" ∈ t.index
  · rw [if_pos hf]
    obtain ⟨q, hq⟩ := Table.loc_ok_of_mem hf hlatest
    rw [hq]
    exact ⟨_, rfl⟩
  · have ho : "Operating Cash Flow" ∈ t.index := by
      rcases havail with h | h
      · exact absurd h hf
      · exact h
    rw [if_neg hf, if_pos ho]
    obtain ⟨q, hq⟩ := Table.loc_ok_of_mem ho hlatest
    rw [hq]
    by_cases hcx : "Capital Expenditure" ∈ t.index
    · rw [if_pos hcx]
      obtain ⟨c, hc⟩ := Table.loc_ok_of_mem hcx hlatest
      rw [hc]
      exact ⟨_, rfl⟩
    · rw [if_neg hcx]
      exact ⟨_, rfl⟩

/-- Witness for the amended C4: the concrete cash-flow table, d = g = 0.05. -/
theorem dcf_equal_rates_unflagged_witness :
    ∃ r : DCFResult,
      simple_dcf_valuation cashflowEx (1/20) (1/20) 5 = .ok (some r) :=
  dcf_equal_rates_unflagged cashflowEx (1/20) 5 "2024" [] rfl
    (Or.inr (by decide))

unseal Rat.mul Rat.inv Rat.add Rat.sub Rat.ofScientific in
/-- Counterexample to C5: as stated ("for all triples with d > g"), both
monotonicity conjuncts fail.  With base FCF 0 the enterprise value is the
same at d = 0.10 and d = 0.20 (both with g = 0.05), so it is not strictly
decreasing in the discount rate; and at g = -3, d = -5/2 (d > g) the
enterprise value falls from 0 to -480 as the base FCF rises from 0 to 120,
so it is not strictly increasing in the base FCF either. -/
theorem dcf_monotonicity_counterexample :
    ((1:ℚ)/20 < 1/10 ∧ (1:ℚ)/10 < 2/10 ∧
     simple_dcf_valuation zeroFcfCashflow (1/20) (1/10) 5 =
       .ok (some (mkDCF 0 (1/20) (1/10) 5)) ∧
     simple_dcf_valuation zeroFcfCashflow (1/20) (2/10) 5 =
       .ok (some (mkDCF 0 (1/20) (2/10) 5)) ∧
     (mkDCF 0 (1/20) (1/10) 5).enterprise_value =
       (mkDCF 0 (1/20) (2/10) 5).enterprise_value) ∧
    ((-3:ℚ) < -5/2 ∧
     (mkDCF 0 (-3) (-5/2) 1).enterprise_value = 0 ∧
     (mkDCF 120 (-3) (-5/2) 1).enterprise_value = -480) :=
  ⟨⟨by norm_num, by norm_num, by decide, by decide, by decide⟩,
   ⟨by norm_num, by decide, by decide⟩⟩

/-- C5 as amended: for d > g with g > -1, the enterprise value computed by
the DCF core is strictly increasing in the base free cash flow; and for a
positive base free cash flow it is strictly decreasing in the discount
rate. -/
theorem dcf_monotonic_amended :
    ∀ (g d : ℚ) (N : ℕ), -1 < g → g < d →
      (∀ f1 f2 : ℚ, f1 < f2 →
        (mkDCF f1 g d N).enterprise_value <
          (mkDCF f2 g d N).enterprise_value) ∧
      (∀ fcf dd : ℚ, 0 < fcf → d < dd →
        (mkDCF fcf g dd N).enterprise_value <
          (mkDCF fcf g d N).enterprise_value) := by
  intro g d N hg hgd
  exact ⟨fun f1 f2 hf => mkDCF_ev_strictMono_fcf hg hgd N hf,
         fun fcf dd hfcf hdd => mkDCF_ev_strictAnti_d hg hgd hdd hfcf N⟩

unseal Rat.mul Rat.inv Rat.add Rat.sub Rat.ofScientific in
/-- Witness for the amended C5, at g = 0.05, d = 0.10, N = 5. -/
theorem dcf_monotonic_amended_witness :
    (mkDCF 100 (1/20) (1/10) 5).enterprise_value <
      (mkDCF 120 (1/20) (1/10) 5).enterprise_value ∧
    (mkDCF 120 (1/20) (2/10) 5).enterprise_value <
      (mkDCF 120 (1/20) (1/10) 5).enterprise_value :=
  ⟨(dcf_monotonic_amended (1/20) (1/10) 5 (by norm_num) (by norm_num)).1
      100 120 (by norm_num),
   (dcf_monotonic_amended (1/20) (1/10) 5 (by norm_num) (by norm_num)).2
      120 (2/10) (by norm_num) (by norm_num)⟩

/-- C6: the base-year FCF preference order of `simple_dcf_valuation`: an
explicit Free Cash Flow row wins (even with Operating Cash Flow present);
otherwise Operating Cash Flow minus |Capital Expenditure| (defaulting
Capital Expenditure to 0 when absent); with neither row the result is the
empty dict. -/
theorem dcf_base_fcf_preference :
    (∀ (t : Table) (g d : ℚ) (N : ℕ) (latest : String) (rest : List String)
       (v : ℚ), t.columns = latest :: rest →
      t.loc "Free Cash Flow" latest = .ok v →
      simple_dcf_valuation t g d N = .ok (some (mkDCF v g d N)) ∧
        (mkDCF v g d N).current_fcf = v) ∧
    (∀ (t : Table) (g d : ℚ) (N : ℕ) (latest : String) (rest : List String)
       (ocf cx : ℚ), t.columns = latest :: rest →
      "Free Cash Flow" ∉ t.index →
      t.loc "Operating Cash Flow" latest = .ok ocf →
      t.loc "Capital Expenditure" latest = .ok cx →
      simple_dcf_valuation t g d N =
        .ok (some (mkDCF (ocf - |cx|) g d N))) ∧
    (∀ (t : Table) (g d : ℚ) (N : ℕ) (latest : String) (rest : List String)
       (ocf : ℚ), t.columns = latest :: rest →
      "Free Cash Flow" ∉ t.index →
      "Capital Expenditure" ∉ t.index →
      t.loc "Operating Cash Flow" latest = .ok ocf →
      simple_dcf_valuation t g d N =
        .ok (some (mkDCF (ocf - 0) g d N))) ∧
    (∀ (t : Table) (g d : ℚ) (N : ℕ),
      "Free Cash Flow" ∉ t.index → "Operating Cash Flow" ∉ t.index →
      t.columns ≠ [] →
      simple_dcf_valuation t g d N = .ok none) := by
  refine ⟨?_, ?_, ?_, ?_⟩
  · intro t g d N latest rest v hcols hv
    refine ⟨?_, rfl⟩
    unfold simple_dcf_valuation dcfBody
    rw [hcols]
    dsimp only [List.head?]
    rw [if_pos (Table.loc_ok_mem hv).1, hv]
  · intro t g d N latest rest ocf cx hcols hf hocf hcx
    unfold simple_dcf_valuation dcfBody
    rw [hcols]
    dsimp only [List.head?]
    rw [if_neg hf, if_pos (Table.loc_ok_mem hocf).1, hocf,
        if_pos (Table.loc_ok_mem hcx).1, hcx]
  · intro t g d N latest rest ocf hcols hf hcx hocf
    unfold simple_dcf_valuation dcfBody
    rw [hcols]
    dsimp only [List.head?]
    rw [if_neg hf, if_pos (Table.loc_ok_mem hocf).1, hocf, if_neg hcx]
  · intro t g d N hf ho hne
    obtain ⟨latest, rest, hcols⟩ : ∃ a l, t.columns = a :: l := by
      cases h : t.columns with
      | nil => exact absurd h hne
      | cons a l => exact ⟨a, l, rfl⟩
    unfold simple_dcf_valuation dcfBody
    rw [hcols]
    dsimp only [List.head?]
    rw [if_neg hf, if_neg ho]

unseal Rat.mul Rat.inv Rat.add Rat.sub Rat.ofScientific in
/-- Witness for C6: all four preference branches at concrete cash-flow
tables. -/
theorem dcf_base_fcf_preference_witness :
    (simple_dcf_valuation cashflowWithFCF (1/20) (1/10) 5 =
        .ok (some (mkDCF 7 (1/20) (1/10) 5)) ∧
      (mkDCF (7:ℚ) (1/20) (1/10) 5).current_fcf = 7) ∧
    simple_dcf_valuation cashflowEx (1/20) (1/10) 5 =
      .ok (some (mkDCF ((150:ℚ) - |(-30:ℚ)|) (1/20) (1/10) 5)) ∧
    simple_dcf_valuation cashflowOCFOnly (1/20) (1/10) 5 =
      .ok (some (mkDCF ((150:ℚ) - 0) (1/20) (1/10) 5)) ∧
    simple_dcf_valuation cashflowNone (1/20) (1/10) 5 = .ok none :=
  ⟨dcf_base_fcf_preference.1 cashflowWithFCF (1/20) (1/10) 5 "2024" [] 7
      rfl (by decide),
   dcf_base_fcf_preference.2.1 cashflowEx (1/20) (1/10) 5 "2024" [] 150 (-30)
      rfl (by decide) (by decide) (by decide),
   dcf_base_fcf_preference.2.2.1 cashflowOCFOnly (1/20) (1/10) 5 "2024" [] 150
      rfl (by decide) (by decide) (by decide),
   dcf_base_fcf_preference.2.2.2 cashflowNone (1/20) (1/10) 5
      (by decide) (by decide) (by decide)⟩
